import Mathlib

/-!
Verification model of `getmailcore/filters.py` (message filters of getmail).

The Python module implements three filter variants (`Filter_external`,
`Filter_classifier`, `Filter_TMDA`) over a shared base `FilterSkeleton`.
This file gives a shallow embedding of the pure content of that code:
Python string primitives are modelled on `List Char` (with a fuel argument
replacing Python's unbounded loops, so every definition is structurally
recursive and evaluable by `decide`), the child-process outcome (exit code,
captured stdout, captured stderr) is an explicit input, and the fork side
effect is recorded in an explicit effect trace.
-/

set_option autoImplicit false

/-! ### Python string primitives -/

/-- Whether `pat` is a prefix of `l` (Python `str.startswith` on char lists). -/
def listIsPre : List Char → List Char → Bool
  | [], _ => true
  | _ :: _, [] => false
  | a :: as, b :: bs => a == b && listIsPre as bs

/-- Characters stripped by Python `str.strip()` / `bytes.strip()`. -/
def pyIsSpace (c : Char) : Bool :=
  c == ' ' || c == '\t' || c == '\n' || c == '\r' || c == '\x0b' || c == '\x0c'

/-- Python `s.strip()`: remove leading and trailing whitespace. -/
def pyStrip (s : String) : String :=
  String.mk (((s.toList.dropWhile pyIsSpace).reverse.dropWhile pyIsSpace).reverse)

/-- Whether `pat` occurs as a contiguous substring of `l`
(Python `pat in s`; `hasSub [] l = true`, as in Python). -/
def hasSub (pat : List Char) : List Char → Bool
  | [] => listIsPre pat []
  | c :: cs => listIsPre pat (c :: cs) || hasSub pat cs

/-- Python `s.replace(pat, rep)` on char lists, for the nonempty patterns used
by `filters.py` (`%(sender)` and friends): replace every non-overlapping
occurrence of `pat`, scanning left to right.  The `fuel` argument makes the
recursion structural; callers pass the length of the string, which is enough
fuel to process every character whenever `pat` is nonempty. -/
def pyReplaceAux (pat rep : List Char) : Nat → List Char → List Char
  | 0, l => l
  | _ + 1, [] => []
  | fuel + 1, c :: cs =>
    if listIsPre pat (c :: cs) then
      rep ++ pyReplaceAux pat rep fuel ((c :: cs).drop pat.length)
    else
      c :: pyReplaceAux pat rep fuel cs

/-- Python `s.replace(pat, rep)` (nonempty `pat`). -/
def pyReplace (s pat rep : String) : String :=
  String.mk (pyReplaceAux pat.toList rep.toList s.toList.length s.toList)

/-- Python `s.split(sep)` on char lists, for nonempty `sep`: split on every
occurrence of the separator, keeping empty fields.  `fuel` as in
`pyReplaceAux`. -/
def pySplitAux (sep : List Char) : Nat → List Char → List (List Char)
  | 0, l => [l]
  | _ + 1, [] => [[]]
  | fuel + 1, c :: cs =>
    if listIsPre sep (c :: cs) then
      [] :: pySplitAux sep fuel ((c :: cs).drop sep.length)
    else
      match pySplitAux sep fuel cs with
      | [] => [[c]]
      | r :: rs => (c :: r) :: rs

/-- Python `s.split(sep)` (nonempty `sep`). -/
def pySplit (sep s : String) : List String :=
  (pySplitAux sep.toList s.toList.length s.toList).map String.mk

/-- Python `sep.join(xs)` on char lists. -/
def pyJoinList (sep : List Char) : List (List Char) → List Char
  | [] => []
  | [x] => x
  | x :: y :: xs => x ++ sep ++ pyJoinList sep (y :: xs)

/-- Python `sep.join(xs)`. -/
def pyJoin (sep : String) (xs : List String) : String :=
  String.mk (pyJoinList sep.toList (xs.map String.toList))

/-- Python `str.lower()` on ASCII letters (the values fed to it here are
e-mail addresses). -/
def pyLowerChar (c : Char) : Char :=
  if 'A' ≤ c ∧ c ≤ 'Z' then Char.ofNat (c.toNat + 32) else c

/-- Python `s.lower()`. -/
def pyLower (s : String) : String :=
  String.mk (s.toList.map pyLowerChar)

/-! ### Data model: errors, messages, retrievers -/

/-- Errors raised by `filters.py`: `getmailConfigurationError` (construction
and privilege-gate failures) and `getmailFilterError` (policy failures, which
the source formats from the exit code and the captured stderr text; the model
keeps both as fields). -/
inductive GetmailError where
  | configurationError (text : String)
  | filterError (exitcode : Int) (errtext : String)
  deriving DecidableEq, Repr

/-- Whether a result is a raised `getmailConfigurationError`. -/
def isConfigurationError {α : Type} : Except GetmailError α → Bool
  | Except.error (GetmailError.configurationError _) => true
  | _ => false

/-- Message model: sender, optional envelope recipient, ordered header list,
opaque body, and the provenance attributes stamped by `filter_message`
(`received_from`, `received_with`, `received_by`).  The message object itself
is an external collaborator of `filters.py`; only the fields the filter code
touches are modelled. -/
structure Message where
  sender : String
  recipient : Option String
  headers : List (String × String)
  body : String
  received_from : String
  received_with : String
  received_by : String
  deriving DecidableEq, Repr

/-- Header count used by the sanity check in `filter_message`
(`len(msg.headers())`). -/
def Message.headersCount (m : Message) : Nat :=
  m.headers.length

/-- Modelled from the spec: `Message.add_header` (message module, not in
src/) appends one new header field at the end of the ordered header list. -/
def Message.add_header (m : Message) (name value : String) : Message :=
  { m with headers := m.headers ++ [(name, value)] }

/-- Modelled from the spec: `Message.copyattrs` (message module, not in src/)
propagates the retrieval-derived attributes (sender, recipient, provenance)
from the original message onto the resulting message. -/
def Message.copyattrs (m orig : Message) : Message :=
  { m with
      sender := orig.sender
      recipient := orig.recipient
      received_from := orig.received_from
      received_with := orig.received_with
      received_by := orig.received_by }

/-- Provenance metadata supplied by the retriever to `filter_message`. -/
structure Retriever where
  received_from : String
  received_with : String
  received_by : String
  deriving DecidableEq, Repr

/-- Lines 74-76 of `filters.py`: stamp the retriever's provenance fields onto
the message before the variant-specific execute step runs. -/
def stampProvenance (msg : Message) (r : Retriever) : Message :=
  { msg with
      received_from := r.received_from
      received_with := r.received_with
      received_by := r.received_by }

/-! ### FilterSkeleton: the shared outcome policy -/

/-- Configuration consulted by `FilterSkeleton.filter_message`: the validated
keep/drop exit-code sets and the two boolean flags.
(`ignore_header_shrinkage` only controls a warning log, which has no effect
on the returned value.) -/
structure PolicyConf where
  exitcodes_keep : List Int
  exitcodes_drop : List Int
  ignore_stderr : Bool
  ignore_header_shrinkage : Bool
  deriving DecidableEq, Repr

/-- Lines 72-108 of `filters.py`, `FilterSkeleton.filter_message`: stamp the
provenance fields, run the variant-specific `_filter_message` (passed here as
`execStep`, since each subclass overrides it), then apply the outcome policy:
drop-set exit codes return `none`; exit codes outside the keep set raise
`getmailFilterError` with the exit code and stderr text; a nonempty stderr
text raises unless `ignore_stderr` is set (in which case it is only logged);
otherwise the resulting message, with the original message's attributes
copied onto it, is returned.  The header-shrinkage comparison only emits a
warning and is therefore invisible in the returned value. -/
def FilterSkeleton.filter_message (conf : PolicyConf)
    (execStep : Message → Except GetmailError (Int × Message × String))
    (retriever : Retriever) (msg : Message) :
    Except GetmailError (Option Message) :=
  let stamped := stampProvenance msg retriever
  match execStep stamped with
  | Except.error e => Except.error e
  | Except.ok (exitcode, newmsg, err) =>
    if conf.exitcodes_drop.contains exitcode then
      Except.ok none
    else if ! conf.exitcodes_keep.contains exitcode then
      Except.error (GetmailError.filterError exitcode err)
    else if err != "" && ! conf.ignore_stderr then
      Except.error (GetmailError.filterError exitcode err)
    else
      Except.ok (some (newmsg.copyattrs stamped))

/-! ### Filter_external -/

/-- Validated configuration of `Filter_external` (and `Filter_classifier`,
which takes the same parameters). -/
structure ExtConf where
  path : String
  unixfrom : Bool
  arguments : List String
  exitcodes_keep : List Int
  exitcodes_drop : List Int
  user : Option String
  group : Option String
  allow_root_commands : Bool
  ignore_header_shrinkage : Bool
  ignore_stderr : Bool
  deriving DecidableEq, Repr

/-- Policy view of an `ExtConf`. -/
def ExtConf.policy (conf : ExtConf) : PolicyConf :=
  { exitcodes_keep := conf.exitcodes_keep
    exitcodes_drop := conf.exitcodes_drop
    ignore_stderr := conf.ignore_stderr
    ignore_header_shrinkage := conf.ignore_header_shrinkage }

/-- Exit-code range filter of `Filter_external.initialize` (lines 196-199):
only integers with `0 <= i <= 255` are kept. -/
def inRange (i : Int) : Bool :=
  decide (0 ≤ i ∧ i ≤ 255)

/-- Lines 183-208 of `filters.py`, `Filter_external.initialize`: reject a
non-executable path, then build `self.exitcodes_keep` / `self.exitcodes_drop`
by discarding configured values outside `0..255`; raise
`getmailConfigurationError` if the resulting keep list is empty or the two
resulting lists intersect, otherwise the instance is created with the two
filtered lists.  (Executability of the path is an OS fact and is passed in as
a boolean; the exit-code values are modelled as integers, i.e. as the results
of the source's `int(i)` conversions.) -/
def Filter_external.initializeCodes (pathExecutable : Bool) (path : String)
    (rawKeep rawDrop : List Int) : Except GetmailError (List Int × List Int) :=
  if ! pathExecutable then
    Except.error (GetmailError.configurationError (path ++ " not executable"))
  else if (rawKeep.filter inRange).isEmpty then
    Except.error (GetmailError.configurationError "exitcodes_keep set empty")
  else if (rawKeep.filter inRange).any (fun i => (rawDrop.filter inRange).contains i) then
    Except.error (GetmailError.configurationError "exitcode sets intersect")
  else
    Except.ok (rawKeep.filter inRange, rawDrop.filter inRange)

/-- Lines 255-260 (and 312-317) of `filters.py`: the message-info mapping.
It always carries the sender; recipient, domain and local-part entries exist
only when the message has a recipient.  `domain` is
`recipient.lower().split('@')[-1]` and `local` is
`'@'.join(recipient.split('@')[:-1])`. -/
def Filter_external.buildMsginfo (msg : Message) : List (String × String) :=
  match msg.recipient with
  | none => [("sender", msg.sender)]
  | some r =>
      [("sender", msg.sender),
       ("recipient", r),
       ("domain", ((pySplit "@" (pyLower r)).getLastD "")),
       ("local", pyJoin "@" ((pySplit "@" r).dropLast))]

/-- Modelled from the spec: `expand_user_vars` (utilities module, not in
src/) applies home-directory expansion to an argument template before
placeholder substitution; templates that do not start with `~` are returned
unchanged. -/
def expand_user_vars (home arg : String) : String :=
  if arg.toList.head? = some '~' then home ++ String.mk arg.toList.tail
  else arg

/-- Lines 236-240 of `filters.py`: substitute the `%(name)` placeholder of
every message-info entry, in mapping order, by literal text replacement
(`arg.replace('%%(%s)' % key, value)`). -/
def substituteArg (msginfo : List (String × String)) (arg : String) : String :=
  msginfo.foldl (fun a kv => pyReplace a ("%(" ++ kv.1 ++ ")") kv.2) arg

/-- Lines 235-240 of `filters.py`: the argument vector handed to `os.execl`
in the child — the path twice (file to execute, then `argv[0]`), followed by
each configured argument template after home-directory expansion and
placeholder substitution.  `os.execl` runs the target directly, with no shell
in between. -/
def Filter_external.childArgv (conf : ExtConf) (home : String)
    (msginfo : List (String × String)) : List String :=
  conf.path :: conf.path ::
    conf.arguments.map (fun arg => substituteArg msginfo (expand_user_vars home arg))

/-- Observable process side effects of one `_filter_message` call; `fork`
records the spawn of the child process. -/
inductive Effect where
  | fork
  deriving DecidableEq, Repr

/-- Outcome of the child process: its collected exit status and the bytes it
wrote to the redirected stdout and stderr.  The child's behaviour is outside
the model, so these are inputs. -/
structure ChildResult where
  exitcode : Int
  stdoutData : String
  stderrData : String
  deriving DecidableEq, Repr

/-- Lines 263-268 (and 321-325, 459-463) of `filters.py`: the security gate —
refuse to run an external command when the effective uid is 0, unless
`allow_root_commands` is set or a run-as `user` is configured. -/
def rootGate (euid : Nat) (allow_root_commands : Bool) (user : Option String) : Bool :=
  euid == 0 && ! allow_root_commands && user.isNone

/-- Lines 252-291 of `filters.py`, `Filter_external._filter_message`: build
the message-info mapping, apply the root gate (raising
`getmailConfigurationError` before any fork), then fork the child (recorded
as an effect), wait for it, strip the captured stderr, and parse the captured
stdout as a new message (`Message(fromfile=stdout)`; the message parser is an
external collaborator, passed in as `parse`).  Returns the
`(exitcode, newmsg, err)` triple together with the effect trace. -/
def Filter_external._filter_message (euid : Nat) (conf : ExtConf)
    (parse : String → Message) (child : ChildResult) (msg : Message) :
    Except GetmailError (Int × Message × String) × List Effect :=
  let _msginfo := Filter_external.buildMsginfo msg
  if rootGate euid conf.allow_root_commands conf.user then
    (Except.error (GetmailError.configurationError
        "refuse to invoke external commands as root by default"), [])
  else
    (Except.ok (child.exitcode, parse child.stdoutData, pyStrip child.stderrData),
     [Effect.fork])

/-- Full `Filter_external.filter_message`: the skeleton policy applied to the
external filter's execute step. -/
def Filter_external.filter_message (euid : Nat) (conf : ExtConf)
    (parse : String → Message) (child : ChildResult)
    (retriever : Retriever) (msg : Message) :
    Except GetmailError (Option Message) :=
  FilterSkeleton.filter_message conf.policy
    (fun m => (Filter_external._filter_message euid conf parse child m).1)
    retriever msg

/-! ### Filter_classifier -/

/-- Modelled from the spec: `decode_crappy_text` (utilities module, not in
src/) is a best-effort text-decoding fallback for classifier output; on text
that is already valid it returns it unchanged, which is how it is modelled on
the `String` values of this embedding. -/
def decode_crappy_text (s : String) : String :=
  s

/-- Lines 346-347 of `filters.py`: the stripped, non-blank lines of the
captured stdout (`[line.strip() for line in stdout.readlines() if
line.strip()]`). -/
def Filter_classifier.addedHeaderLines (stdoutData : String) : List String :=
  ((pySplit "\n" stdoutData).map pyStrip).filter (fun l => l != "")

/-- Lines 309-355 of `filters.py`, `Filter_classifier._filter_message`: same
gate and fork as the external filter, but instead of parsing stdout as a new
message, each stripped non-blank stdout line is decoded and appended as an
`X-getmail-filter-classifier` header on the original message, which is
returned. -/
def Filter_classifier._filter_message (euid : Nat) (conf : ExtConf)
    (child : ChildResult) (msg : Message) :
    Except GetmailError (Int × Message × String) × List Effect :=
  let _msginfo := Filter_external.buildMsginfo msg
  if rootGate euid conf.allow_root_commands conf.user then
    (Except.error (GetmailError.configurationError
        "refuse to invoke external commands as root by default"), [])
  else
    let newmsg := (Filter_classifier.addedHeaderLines child.stdoutData).foldl
      (fun m line => m.add_header "X-getmail-filter-classifier"
        (decode_crappy_text line)) msg
    (Except.ok (child.exitcode, newmsg, pyStrip child.stderrData), [Effect.fork])

/-- The header fields the classifier adds: one `X-getmail-filter-classifier`
field per stripped non-blank stdout line, in line order, each decoded. -/
def classifierHeaders (stdoutData : String) : List (String × String) :=
  (Filter_classifier.addedHeaderLines stdoutData).map
    (fun l => ("X-getmail-filter-classifier", decode_crappy_text l))

/-- Full `Filter_classifier.filter_message`: the skeleton policy applied to
the classifier's execute step. -/
def Filter_classifier.filter_message (euid : Nat) (conf : ExtConf)
    (child : ChildResult) (retriever : Retriever) (msg : Message) :
    Except GetmailError (Option Message) :=
  FilterSkeleton.filter_message conf.policy
    (fun m => (Filter_classifier._filter_message euid conf child m).1)
    retriever msg

/-! ### Filter_TMDA -/

/-- Validated configuration of `Filter_TMDA` (`conf-break` is the separator
used to extract `EXT`, default `-`). -/
structure TMDAConf where
  path : String
  user : Option String
  group : Option String
  allow_root_commands : Bool
  ignore_stderr : Bool
  confBreak : String
  deriving DecidableEq, Repr

/-- Line 403 of `filters.py`: the TMDA keep set is hardcoded to `(0,)`. -/
def Filter_TMDA.exitcodes_keep : List Int := [0]

/-- Line 404 of `filters.py`: the TMDA drop set is hardcoded to `(99,)`. -/
def Filter_TMDA.exitcodes_drop : List Int := [99]

/-- Policy view of a `TMDAConf` (`ignore_header_shrinkage` is not a TMDA
parameter; `self.conf.get('ignore_header_shrinkage', False)` yields False). -/
def TMDAConf.policy (conf : TMDAConf) : PolicyConf :=
  { exitcodes_keep := Filter_TMDA.exitcodes_keep
    exitcodes_drop := Filter_TMDA.exitcodes_drop
    ignore_stderr := conf.ignore_stderr
    ignore_header_shrinkage := false }

/-- Lines 433-437 of `filters.py`: the `EXT` environment value —
`conf['conf-break'].join('@'.join(recipient.split('@')[:-1])
.split(conf['conf-break'])[1:])`, i.e. the recipient's local-part split on
the break string, with all but the first segment rejoined by it. -/
def Filter_TMDA.extValue (brk recipient : String) : String :=
  pyJoin brk
    ((pySplit brk (pyJoin "@" ((pySplit "@" recipient).dropLast))).drop 1)

/-- Lines 430-437 of `filters.py`: the environment overlay exported to the
TMDA child process. -/
def Filter_TMDA.childEnv (conf : TMDAConf) (sender recipient : String) :
    List (String × String) :=
  [("SENDER", sender), ("RECIPIENT", recipient),
   ("EXT", Filter_TMDA.extValue conf.confBreak recipient)]

/-- Lines 449-483 of `filters.py`, `Filter_TMDA._filter_message`: raise a
configuration error when the message has no envelope recipient (the source
checks `msg.recipient == None or msg.sender == None`; the model's message
type always carries a sender string, so the recipient test remains), then
apply the root gate, then fork, wait, and return the original message with
the child's exit code and stripped stderr.  TMDA never replaces the message
body. -/
def Filter_TMDA._filter_message (euid : Nat) (conf : TMDAConf)
    (child : ChildResult) (msg : Message) :
    Except GetmailError (Int × Message × String) × List Effect :=
  if msg.recipient.isNone then
    (Except.error (GetmailError.configurationError
        "TMDA requires the message envelope and therefore a multidrop retriever"),
     [])
  else if rootGate euid conf.allow_root_commands conf.user then
    (Except.error (GetmailError.configurationError
        "refuse to invoke external commands as root by default"), [])
  else
    (Except.ok (child.exitcode, msg, pyStrip child.stderrData), [Effect.fork])

/-- Full `Filter_TMDA.filter_message`: the skeleton policy applied to the
TMDA execute step. -/
def Filter_TMDA.filter_message (euid : Nat) (conf : TMDAConf)
    (child : ChildResult) (retriever : Retriever) (msg : Message) :
    Except GetmailError (Option Message) :=
  FilterSkeleton.filter_message conf.policy
    (fun m => (Filter_TMDA._filter_message euid conf child m).1)
    retriever msg

/-! ### Sample values used by the concrete witnesses -/

/-- A concrete message for witnesses. -/
def sampleMsg : Message :=
  { sender := "a@b.com", recipient := none,
    headers := [("From", "x"), ("Subject", "s")], body := "body",
    received_from := "", received_with := "", received_by := "" }

/-- A concrete resulting message for witnesses. -/
def sampleNewMsg : Message :=
  { sender := "a@b.com", recipient := none,
    headers := [("From", "x"), ("Subject", "s"), ("X-f", "y")], body := "body2",
    received_from := "", received_with := "", received_by := "" }

/-- A concrete retriever for witnesses. -/
def sampleRetr : Retriever :=
  { received_from := "mail.example.net", received_with := "POP3",
    received_by := "localhost" }

/-- A concrete policy configuration (the default keep/drop sets) for
witnesses. -/
def samplePolicy : PolicyConf :=
  { exitcodes_keep := [0], exitcodes_drop := [99, 100],
    ignore_stderr := false, ignore_header_shrinkage := false }

/-- A concrete `Filter_external` configuration for witnesses. -/
def sampleExtConf : ExtConf :=
  { path := "/usr/local/bin/myfilter", unixfrom := false,
    arguments := ["-f%(sender)"],
    exitcodes_keep := [0], exitcodes_drop := [99, 100],
    user := none, group := none, allow_root_commands := false,
    ignore_header_shrinkage := false, ignore_stderr := false }

/-- A concrete `Filter_TMDA` configuration for witnesses. -/
def sampleTMDAConf : TMDAConf :=
  { path := "/usr/local/bin/tmda-filter", user := none, group := none,
    allow_root_commands := false, ignore_stderr := false, confBreak := "-" }

/-- The sample policy with `ignore_stderr` set. -/
def samplePolicyIgnore : PolicyConf :=
  { samplePolicy with ignore_stderr := true }

/-- A concrete child-process outcome for witnesses: classifier stdout with a
blank middle line. -/
def sampleChild : ChildResult :=
  { exitcode := 0, stdoutData := "spam=0.9\n \nclean\n", stderrData := "" }

/-- A concrete `Filter_external` configuration whose argument templates use
the recipient-derived placeholders. -/
def sampleConf9 : ExtConf :=
  { sampleExtConf with arguments := ["%(recipient)", "%(domain)", "%(local)"] }

/-! ### Helper lemmas -/

/-- Replacing a pattern that does not occur in a string leaves it unchanged. -/
theorem pyReplaceAux_of_not_hasSub (pat rep : List Char) :
    ∀ (fuel : Nat) (l : List Char), hasSub pat l = false →
      pyReplaceAux pat rep fuel l = l := by
  intro fuel
  induction fuel with
  | zero => intro l _; rfl
  | succ n ih =>
    intro l h
    cases l with
    | nil => rfl
    | cons c cs =>
      simp only [hasSub, Bool.or_eq_false_iff] at h
      simp only [pyReplaceAux, h.1, Bool.false_eq_true, if_false]
      rw [ih cs h.2]

/-- Splitting on a single character that does not occur in the list yields
the whole list as the only field. -/
theorem pySplitAux_single_of_not_mem (ch : Char) :
    ∀ (fuel : Nat) (l : List Char), ch ∉ l →
      pySplitAux [ch] fuel l = [l] := by
  intro fuel
  induction fuel with
  | zero => intro l _; rfl
  | succ n ih =>
    intro l h
    cases l with
    | nil => rfl
    | cons c cs =>
      have hc : c ≠ ch := fun he => h (he ▸ List.mem_cons_self c cs)
      have hpre : listIsPre [ch] (c :: cs) = false := by
        simp [listIsPre]
        intro he
        exact absurd he.symm hc
      rw [pySplitAux, ih cs (fun hm => h (List.mem_cons_of_mem c hm))]
      simp [hpre]

/-- Folding `add_header` over a list of lines appends exactly the
corresponding header fields, in order, and changes nothing else. -/
theorem foldl_add_header (name : String) (f : String → String) :
    ∀ (ls : List String) (m : Message),
      ls.foldl (fun acc l => acc.add_header name (f l)) m =
        { m with headers := m.headers ++ ls.map (fun l => (name, f l)) } := by
  intro ls
  induction ls with
  | nil => intro m; simp
  | cons x xs ih =>
    intro m
    simp only [List.foldl_cons, List.map_cons]
    rw [ih]
    simp [Message.add_header]

/-- Substituting only the sender placeholder leaves any argument without an
occurrence of the token `%(sender)` unchanged, whatever the sender value. -/
theorem substituteArg_sender_only (s t : String)
    (h : hasSub "%(sender)".toList t.toList = false) :
    substituteArg [("sender", s)] t = t := by
  show pyReplace t ("%(" ++ "sender" ++ ")") s = t
  show String.mk (pyReplaceAux "%(sender)".toList s.toList t.toList.length t.toList) = t
  rw [pyReplaceAux_of_not_hasSub _ _ _ _ h]
  cases t
  rfl

/-! ### Claims -/

/-- Claim C1: for every filter variant (quantified here as the execute step
`FilterSkeleton.filter_message` dispatches to) and every message, if the exit
code produced by the execute step is a member of the configured drop set,
`filter_message` returns absent, regardless of the resulting message, of the
stderr text, and of the `ignore_stderr` setting. -/
theorem claim_C1_drop_returns_absent (conf : PolicyConf)
    (execStep : Message → Except GetmailError (Int × Message × String))
    (retriever : Retriever) (msg newmsg : Message) (exitcode : Int) (err : String)
    (hexec : execStep (stampProvenance msg retriever) =
      Except.ok (exitcode, newmsg, err))
    (hdrop : exitcode ∈ conf.exitcodes_drop) :
    FilterSkeleton.filter_message conf execStep retriever msg = Except.ok none := by
  simp [FilterSkeleton.filter_message, hexec, hdrop]

/-- Concrete instance of C1: exit code 99 with the default drop set drops the
message even though stderr is nonempty. -/
theorem claim_C1_witness :
    FilterSkeleton.filter_message samplePolicy
      (fun _ => Except.ok (99, sampleNewMsg, "boom")) sampleRetr sampleMsg =
      Except.ok none :=
  claim_C1_drop_returns_absent samplePolicy _ sampleRetr sampleMsg sampleNewMsg
    99 "boom" rfl (by decide)

/-- Claim C2: for every filter variant and message, an exit code in neither
the drop set nor the keep set makes `filter_message` raise
`getmailFilterError` carrying the exit code and the stderr text, regardless
of the stderr content. -/
theorem claim_C2_unknown_exit_raises (conf : PolicyConf)
    (execStep : Message → Except GetmailError (Int × Message × String))
    (retriever : Retriever) (msg newmsg : Message) (exitcode : Int) (err : String)
    (hexec : execStep (stampProvenance msg retriever) =
      Except.ok (exitcode, newmsg, err))
    (hdrop : exitcode ∉ conf.exitcodes_drop)
    (hkeep : exitcode ∉ conf.exitcodes_keep) :
    FilterSkeleton.filter_message conf execStep retriever msg =
      Except.error (GetmailError.filterError exitcode err) := by
  simp [FilterSkeleton.filter_message, hexec, hdrop, hkeep]

/-- Concrete instance of C2: exit code 1 with the default sets raises, with
exit code and stderr text in the error. -/
theorem claim_C2_witness :
    FilterSkeleton.filter_message samplePolicy
      (fun _ => Except.ok (1, sampleNewMsg, "oops")) sampleRetr sampleMsg =
      Except.error (GetmailError.filterError 1 "oops") :=
  claim_C2_unknown_exit_raises samplePolicy _ sampleRetr sampleMsg sampleNewMsg
    1 "oops" rfl (by decide) (by decide)

/-- Claim C3: for every filter variant, a keep-set exit code (with the
keep/drop sets disjoint, as construction guarantees) together with a nonempty
stripped stderr text raises `getmailFilterError` when `ignore_stderr` is
false, and returns the resulting message (with the original's attributes
copied onto it, the text being only logged) when `ignore_stderr` is true. -/
theorem claim_C3_stderr_policy (conf : PolicyConf)
    (execStep : Message → Except GetmailError (Int × Message × String))
    (retriever : Retriever) (msg newmsg : Message) (exitcode : Int) (raw : String)
    (hexec : execStep (stampProvenance msg retriever) =
      Except.ok (exitcode, newmsg, pyStrip raw))
    (hkeep : exitcode ∈ conf.exitcodes_keep)
    (hdisj : ∀ x : Int, x ∈ conf.exitcodes_keep → x ∉ conf.exitcodes_drop)
    (herr : pyStrip raw ≠ "") :
    (conf.ignore_stderr = false →
      FilterSkeleton.filter_message conf execStep retriever msg =
        Except.error (GetmailError.filterError exitcode (pyStrip raw))) ∧
    (conf.ignore_stderr = true →
      FilterSkeleton.filter_message conf execStep retriever msg =
        Except.ok (some (newmsg.copyattrs (stampProvenance msg retriever)))) := by
  have hdrop := hdisj exitcode hkeep
  constructor
  · intro hi
    simp [FilterSkeleton.filter_message, hexec, hdrop, hkeep, hi, herr]
  · intro hi
    simp [FilterSkeleton.filter_message, hexec, hdrop, hkeep, hi]

/-- Concrete instance of C3: exit code 0, stderr text "boom" (stripped from
the raw capture " boom ") raises when `ignore_stderr` is false and returns
the resulting message when it is true. -/
theorem claim_C3_witness :
    (FilterSkeleton.filter_message samplePolicy
        (fun _ => Except.ok (0, sampleNewMsg, pyStrip " boom ")) sampleRetr sampleMsg =
      Except.error (GetmailError.filterError 0 (pyStrip " boom "))) ∧
    (FilterSkeleton.filter_message samplePolicyIgnore
        (fun _ => Except.ok (0, sampleNewMsg, pyStrip " boom ")) sampleRetr sampleMsg =
      Except.ok (some (sampleNewMsg.copyattrs (stampProvenance sampleMsg sampleRetr)))) := by
  constructor
  · exact (claim_C3_stderr_policy samplePolicy _ sampleRetr sampleMsg sampleNewMsg
      0 " boom " rfl (by decide)
      (by intro x hx; simp [samplePolicy] at hx; subst hx; decide) (by decide)).1 rfl
  · exact (claim_C3_stderr_policy samplePolicyIgnore _ sampleRetr sampleMsg sampleNewMsg
      0 " boom " rfl (by decide)
      (by intro x hx; simp [samplePolicyIgnore, samplePolicy] at hx; subst hx; decide)
      (by decide)).2 rfl

/-- Claim C4: for every filter variant, when the effective uid is 0,
`allow_root_commands` is false and no run-as user is configured, the execute
step raises `getmailConfigurationError` and its effect trace is empty: no
child process is forked. -/
theorem claim_C4_root_gate (euid : Nat) (conf : ExtConf) (tconf : TMDAConf)
    (parse : String → Message) (child : ChildResult) (msg : Message)
    (h0 : euid = 0)
    (hA : conf.allow_root_commands = false) (hU : conf.user = none)
    (htA : tconf.allow_root_commands = false) (htU : tconf.user = none) :
    (isConfigurationError (Filter_external._filter_message euid conf parse child msg).1 = true ∧
      (Filter_external._filter_message euid conf parse child msg).2 = []) ∧
    (isConfigurationError (Filter_classifier._filter_message euid conf child msg).1 = true ∧
      (Filter_classifier._filter_message euid conf child msg).2 = []) ∧
    (isConfigurationError (Filter_TMDA._filter_message euid tconf child msg).1 = true ∧
      (Filter_TMDA._filter_message euid tconf child msg).2 = []) := by
  subst h0
  have hg : rootGate 0 conf.allow_root_commands conf.user = true := by
    rw [hA, hU]; rfl
  have hgt : rootGate 0 tconf.allow_root_commands tconf.user = true := by
    rw [htA, htU]; rfl
  refine ⟨⟨?_, ?_⟩, ⟨?_, ?_⟩, ?_, ?_⟩
  · simp [Filter_external._filter_message, hg, isConfigurationError]
  · simp [Filter_external._filter_message, hg]
  · simp [Filter_classifier._filter_message, hg, isConfigurationError]
  · simp [Filter_classifier._filter_message, hg]
  · cases hrec : msg.recipient with
    | none => simp [Filter_TMDA._filter_message, hrec, isConfigurationError]
    | some r => simp [Filter_TMDA._filter_message, hrec, hgt, isConfigurationError]
  · cases hrec : msg.recipient with
    | none => simp [Filter_TMDA._filter_message, hrec]
    | some r => simp [Filter_TMDA._filter_message, hrec, hgt]

/-- Concrete instance of C4: with euid 0 and the sample configurations, all
three variants fail with a configuration error and fork nothing. -/
theorem claim_C4_witness :
    (isConfigurationError (Filter_external._filter_message 0 sampleExtConf
        (fun _ => sampleNewMsg) sampleChild sampleMsg).1 = true ∧
      (Filter_external._filter_message 0 sampleExtConf
        (fun _ => sampleNewMsg) sampleChild sampleMsg).2 = []) ∧
    (isConfigurationError (Filter_classifier._filter_message 0 sampleExtConf
        sampleChild sampleMsg).1 = true ∧
      (Filter_classifier._filter_message 0 sampleExtConf sampleChild sampleMsg).2 = []) ∧
    (isConfigurationError (Filter_TMDA._filter_message 0 sampleTMDAConf
        sampleChild sampleMsg).1 = true ∧
      (Filter_TMDA._filter_message 0 sampleTMDAConf sampleChild sampleMsg).2 = []) :=
  claim_C4_root_gate 0 sampleExtConf sampleTMDAConf (fun _ => sampleNewMsg)
    sampleChild sampleMsg rfl rfl rfl rfl rfl

/-- Claim C5: argument placeholder substitution is literal text replacement
after home-directory expansion: for the template `-f%(sender)` and sender
`a@b.com`, the child argument vector is exactly
`[path, path, "-fa@b.com"]` — the path twice, then the substituted argument,
handed directly to `os.execl` with no shell. -/
theorem claim_C5_substitution (conf : ExtConf) (home : String) (msg : Message)
    (hs : msg.sender = "a@b.com") (hr : msg.recipient = none)
    (hargs : conf.arguments = ["-f%(sender)"]) :
    Filter_external.childArgv conf home (Filter_external.buildMsginfo msg) =
      [conf.path, conf.path, "-fa@b.com"] := by
  have h1 : expand_user_vars home "-f%(sender)" = "-f%(sender)" := rfl
  have h2 : substituteArg [("sender", "a@b.com")] "-f%(sender)" = "-fa@b.com" := by
    decide
  simp [Filter_external.childArgv, Filter_external.buildMsginfo, hargs, hr, hs, h1, h2]

/-- Concrete instance of C5 with the sample configuration. -/
theorem claim_C5_witness :
    Filter_external.childArgv sampleExtConf "/root"
        (Filter_external.buildMsginfo sampleMsg) =
      ["/usr/local/bin/myfilter", "/usr/local/bin/myfilter", "-fa@b.com"] :=
  (claim_C5_substitution sampleExtConf "/root" sampleMsg rfl rfl rfl).trans (by decide)

/-- Claim C6: every successfully constructed filter has disjoint keep and
drop exit-code lists, and construction fails with
`getmailConfigurationError` when the configured keep specification yields an
empty keep list or the two resulting lists overlap (the instance is never
created, the result being an error). -/
theorem claim_C6_exitcode_sets (pathExecutable : Bool) (path : String)
    (rawKeep rawDrop : List Int) :
    (∀ keep drop : List Int,
        Filter_external.initializeCodes pathExecutable path rawKeep rawDrop =
          Except.ok (keep, drop) →
        ∀ x : Int, x ∈ keep → x ∉ drop) ∧
    ((rawKeep.filter inRange = [] ∨
        ∃ x : Int, x ∈ rawKeep.filter inRange ∧ x ∈ rawDrop.filter inRange) →
      isConfigurationError
        (Filter_external.initializeCodes pathExecutable path rawKeep rawDrop) = true) := by
  constructor
  · intro keep drop h x hxk hxd
    unfold Filter_external.initializeCodes at h
    split at h
    · cases h
    · split at h
      · cases h
      · split at h
        · cases h
        · rename_i hnany
          injection h with hpair
          cases hpair
          exact hnany (List.any_eq_true.mpr ⟨x, hxk, by simpa using hxd⟩)
  · intro hcase
    unfold Filter_external.initializeCodes
    split
    · rfl
    · split
      · rfl
      · split
        · rfl
        · rename_i hne hnany
          exfalso
          rcases hcase with he | ⟨x, hxk, hxd⟩
          · exact hne (by rw [he]; rfl)
          · exact hnany (List.any_eq_true.mpr ⟨x, hxk, by simpa using hxd⟩)

/-- Concrete instance of C6: keep `(0,)` against drop `(0, 100)` overlaps, so
construction fails with a configuration error; and the successful sample
construction has disjoint sets. -/
theorem claim_C6_witness :
    isConfigurationError
      (Filter_external.initializeCodes true "/usr/local/bin/myfilter" [0] [0, 100]) = true :=
  (claim_C6_exitcode_sets true "/usr/local/bin/myfilter" [0] [0, 100]).2
    (Or.inr ⟨0, by decide, by decide⟩)

/-- Splitting a string on `-` when it contains no `-` yields the string as
the only field. -/
theorem pySplit_dash_of_not_mem (s : String) (h : '-' ∉ s.toList) :
    pySplit "-" s = [s] := by
  unfold pySplit
  rw [show ("-" : String).toList = ['-'] from rfl]
  rw [pySplitAux_single_of_not_mem '-' _ _ h]
  cases s
  rfl

/-- Claim C7: the TMDA `EXT` environment value is the recipient local-part
split on the configured break character with all but the first segment
rejoined: for recipient `user-ext1-ext2@domain` and break `-` it is
`ext1-ext2`, and for any recipient whose local-part contains no break
character it is the empty string. -/
theorem claim_C7_ext_value :
    Filter_TMDA.extValue "-" "user-ext1-ext2@domain" = "ext1-ext2" ∧
    ∀ recipient : String,
      '-' ∉ (pyJoin "@" ((pySplit "@" recipient).dropLast)).toList →
      Filter_TMDA.extValue "-" recipient = "" := by
  constructor
  · decide
  · intro r h
    unfold Filter_TMDA.extValue
    rw [pySplit_dash_of_not_mem _ h]
    rfl

/-- Concrete instance of C7: recipient `user@domain` has no break character
in its local-part, so `EXT` is empty. -/
theorem claim_C7_witness :
    Filter_TMDA.extValue "-" "user@domain" = "" :=
  claim_C7_ext_value.2 "user@domain" (by decide)

/-- Claim C8: the classifier appends each stripped non-blank stdout line, in
line order and after best-effort decoding, as one `X-getmail-filter-classifier`
header on the original message, and changes nothing else about it; the lines
of `"spam=0.9\n \nclean\n"` contribute exactly the two headers `spam=0.9` and
`clean`, and empty stdout contributes none (the message is returned
unchanged). -/
theorem claim_C8_classifier (euid : Nat) (conf : ExtConf) (child : ChildResult)
    (msg : Message)
    (hgate : rootGate euid conf.allow_root_commands conf.user = false) :
    (Filter_classifier._filter_message euid conf child msg).1 =
      Except.ok (child.exitcode,
        { msg with headers := msg.headers ++ classifierHeaders child.stdoutData },
        pyStrip child.stderrData) ∧
    Filter_classifier.addedHeaderLines "spam=0.9\n \nclean\n" = ["spam=0.9", "clean"] ∧
    Filter_classifier.addedHeaderLines "" = [] := by
  refine ⟨?_, by decide, by decide⟩
  simp only [Filter_classifier._filter_message, hgate, Bool.false_eq_true, if_false]
  rw [foldl_add_header]
  rfl

/-- Concrete instance of C8: classifier stdout `"spam=0.9\n \nclean\n"` adds
exactly the two headers `spam=0.9` and `clean`, in order. -/
theorem claim_C8_witness :
    (Filter_classifier._filter_message 1000 sampleExtConf sampleChild sampleMsg).1 =
      Except.ok (sampleChild.exitcode,
        { sampleMsg with headers := sampleMsg.headers ++ classifierHeaders sampleChild.stdoutData },
        pyStrip sampleChild.stderrData) ∧
    Filter_classifier.addedHeaderLines sampleChild.stdoutData = ["spam=0.9", "clean"] :=
  ⟨(claim_C8_classifier 1000 sampleExtConf sampleChild sampleMsg (by decide)).1,
   by decide⟩

/-- Claim C9: when the message has no recipient, the message-info mapping
holds only the sender entry, so recipient-derived placeholders in argument
templates reach the child argument vector unsubstituted as literal text, and
the execute step still succeeds (no error for their presence). -/
theorem claim_C9_missing_recipient (msg : Message) (conf : ExtConf) (home : String)
    (hr : msg.recipient = none)
    (hargs : conf.arguments = ["%(recipient)", "%(domain)", "%(local)"]) :
    Filter_external.buildMsginfo msg = [("sender", msg.sender)] ∧
    Filter_external.childArgv conf home (Filter_external.buildMsginfo msg) =
      [conf.path, conf.path, "%(recipient)", "%(domain)", "%(local)"] ∧
    ∀ (euid : Nat) (parse : String → Message) (child : ChildResult),
      rootGate euid conf.allow_root_commands conf.user = false →
      (Filter_external._filter_message euid conf parse child msg).1 =
        Except.ok (child.exitcode, parse child.stdoutData, pyStrip child.stderrData) := by
  have hmi : Filter_external.buildMsginfo msg = [("sender", msg.sender)] := by
    simp [Filter_external.buildMsginfo, hr]
  refine ⟨hmi, ?_, ?_⟩
  · rw [hmi]
    have e1 : expand_user_vars home "%(recipient)" = "%(recipient)" := rfl
    have e2 : expand_user_vars home "%(domain)" = "%(domain)" := rfl
    have e3 : expand_user_vars home "%(local)" = "%(local)" := rfl
    have s1 := substituteArg_sender_only msg.sender "%(recipient)" (by decide)
    have s2 := substituteArg_sender_only msg.sender "%(domain)" (by decide)
    have s3 := substituteArg_sender_only msg.sender "%(local)" (by decide)
    simp [Filter_external.childArgv, hargs, e1, e2, e3, s1, s2, s3]
  · intro euid parse child hgate
    simp [Filter_external._filter_message, hgate]

/-- Concrete instance of C9 with the sample configuration: the three
placeholder templates pass through literally. -/
theorem claim_C9_witness :
    Filter_external.childArgv sampleConf9 "/root"
        (Filter_external.buildMsginfo sampleMsg) =
      ["/usr/local/bin/myfilter", "/usr/local/bin/myfilter",
       "%(recipient)", "%(domain)", "%(local)"] :=
  ((claim_C9_missing_recipient sampleMsg sampleConf9 "/root" rfl rfl).2.1).trans
    (by decide)

/-- Claim C10: integers outside `0..255` in the configured keep/drop
specifications are silently discarded at construction: whenever at least one
in-range keep value remains and the filtered lists are disjoint, construction
succeeds (no configuration error) with exactly the filtered lists — so the
discarded values are not members of the policy sets used later. -/
theorem claim_C10_out_of_range_discarded (path : String) (rawKeep rawDrop : List Int)
    (hk : rawKeep.filter inRange ≠ [])
    (hdisj : ∀ x : Int, x ∈ rawKeep.filter inRange → x ∉ rawDrop.filter inRange) :
    Filter_external.initializeCodes true path rawKeep rawDrop =
      Except.ok (rawKeep.filter inRange, rawDrop.filter inRange) ∧
    ∀ i : Int, (i < 0 ∨ 255 < i) →
      i ∉ rawKeep.filter inRange ∧ i ∉ rawDrop.filter inRange := by
  constructor
  · unfold Filter_external.initializeCodes
    split
    · rename_i hc
      simp at hc
    · split
      · rename_i hc
        rw [List.isEmpty_eq_true] at hc
        exact absurd hc hk
      · split
        · rename_i hc
          exfalso
          rw [List.any_eq_true] at hc
          obtain ⟨x, hx, hcont⟩ := hc
          exact hdisj x hx (by simpa using hcont)
        · rfl
  · intro i hi
    constructor <;>
    · intro hmem
      have hp := (List.mem_filter.mp hmem).2
      simp [inRange] at hp
      rcases hi with h | h <;> omega

/-- Concrete instance of C10: keep `(0, 300)` and drop `(99, -1)` construct
successfully as keep `[0]`, drop `[99]`, with the out-of-range values 300 and
-1 absent from both policy sets. -/
theorem claim_C10_witness :
    Filter_external.initializeCodes true "/usr/local/bin/myfilter" [0, 300] [99, -1] =
      Except.ok ([0], [99]) ∧
    (300 : Int) ∉ ([0, 300] : List Int).filter inRange ∧
    (-1 : Int) ∉ ([99, -1] : List Int).filter inRange := by
  have hre : ([0, 300] : List Int).filter inRange = [0] := by decide
  have hrd : ([99, -1] : List Int).filter inRange = [99] := by decide
  have hdisj : ∀ x : Int, x ∈ ([0, 300] : List Int).filter inRange →
      x ∉ ([99, -1] : List Int).filter inRange := by
    rw [hre, hrd]
    intro x hx
    simp at hx
    subst hx
    decide
  have h := claim_C10_out_of_range_discarded "/usr/local/bin/myfilter" [0, 300] [99, -1]
    (by decide) hdisj
  refine ⟨?_, ?_, ?_⟩
  · have h1 := h.1
    rw [hre, hrd] at h1
    exact h1
  · exact (h.2 300 (Or.inr (by norm_num))).1
  · exact (h.2 (-1) (Or.inl (by norm_num))).2
